import Mathlib

/-!
Shallow embedding of the cargo-logistics backend (repository `rip-go-app`).

The Go repository layer (`internal/app/repository/repository.go`) and the
handler layer are embedded as pure functions over an explicit `Store` value;
a database transaction that rolls back is modelled by returning the original
store together with the error.  Monetary amounts, distances and cargo
dimensions (Go `float64`) are modelled as integers `ℤ`: every concrete value
the claims and witnesses use is a small integer, on which `float64`
arithmetic is exact, and no verified claim concerns fractional values or
floating-point rounding.  Row ids and entity ids
(Go `int`, database serials) are modelled as `Nat`.  Time-valued columns
(`created_at`, `formed_at`, `completed_at`) play no role in any claim and are
omitted from the record types.

The packages `internal/app/ds` (except `ds/cart.go`) and
`internal/app/calculator` are not part of the available sources; the record
types and the delivery calculator are modelled from the specification where
so marked.
-/

/-- Modelled from the spec: `ds.TransportService`, "a purchasable transport
offering" with "identifier, name, description, base price, base delivery
days" (the `ds` source file defining it is not under `src/`; field usage is
taken from its callers).  `deleted` models the `deleted_at IS NULL` soft
delete flag. -/
structure TransportService where
  id : Nat
  name : String
  description : String
  price : ℤ
  deliveryDays : Nat
  deleted : Bool
deriving Repr, DecidableEq

/-- Modelled from the spec: the `calculator` package result type, "an
ephemeral computed result — delivery days (integer), total cost, distance,
volume, validity flag, error message" (field names from the call sites
`res.IsValid`, `res.ErrorMessage`, `res.DeliveryDays`, `res.TotalCost`,
`res.Distance`, `res.Volume`). -/
structure DeliveryQuote where
  isValid : Bool
  errorMessage : String
  deliveryDays : Nat
  totalCost : ℤ
  distance : ℤ
  volume : ℤ
deriving Repr, DecidableEq

/-- `repository.CargoLogisticRequestItem`: one line item of a cargo
logistic request, as supplied by the caller. -/
structure CargoLogisticRequestItem where
  transportServiceID : Nat
  fromCity : String
  toCity : String
  length : ℤ
  width : ℤ
  height : ℤ
  weight : ℤ
deriving Repr, DecidableEq

instance : Inhabited CargoLogisticRequestItem :=
  ⟨⟨0, "", "", 0, 0, 0, 0⟩⟩

/-- `ds.DraftLogisticRequestService` / `ds.LogisticRequestService`
(table `logistic_request_services`, see `ds/cart.go`): one persisted
line-item row. -/
structure LogisticRequestService where
  id : Nat
  logisticRequestID : Nat
  transportServiceID : Nat
  quantity : Nat
deriving Repr, DecidableEq

/-- Modelled from the spec: `ds.LogisticRequest`, "the persisted aggregate —
route (from/to city), summed cargo dimensions/weight, total cost, total
days, status (draft → formed → completed/rejected), creator/moderator
references" (the `ds` source file defining it is not under `src/`; field
usage is taken from its callers). -/
structure LogisticRequest where
  id : Nat
  sessionID : String
  isDraft : Bool
  fromCity : String
  toCity : String
  weight : ℤ
  length : ℤ
  width : ℤ
  height : ℤ
  totalCost : ℤ
  totalDays : Nat
  status : String
  creatorID : Nat
  moderatorID : Option Nat
  deleted : Bool
deriving Repr, DecidableEq

/-- `ds.StatusDraft`. -/
def statusDraft : String := "draft"

/-- `ds.StatusFormed`. -/
def statusFormed : String := "formed"

/-- `ds.StatusCompleted`. -/
def statusCompleted : String := "completed"

/-- `ds.StatusRejected`. -/
def statusRejected : String := "rejected"

/-- Modelled from the spec: `ds.GetCreatorID`, the id of the system creator
used for guest drafts ("создаём с системным создателем"); the concrete value
is irrelevant to every claim. -/
def GetCreatorID : Nat := 1

/-- The relational store backing the repository: the three tables touched by
the verified operations plus the serial counters for the two primary keys. -/
structure Store where
  services : List TransportService
  requests : List LogisticRequest
  rows : List LogisticRequestService
  nextRequestID : Nat
  nextRowID : Nat
deriving Repr, DecidableEq

/-! ### City distance lookup (`handler.calculateDistance`) -/

/-- Lower-cases one character the way Go `strings.ToLower` does, restricted
to the ASCII Latin and Cyrillic ranges that occur in the city table. -/
def lowerChar (c : Char) : Char :=
  if 0x41 ≤ c.toNat ∧ c.toNat ≤ 0x5A then Char.ofNat (c.toNat + 0x20)
  else if 0x410 ≤ c.toNat ∧ c.toNat ≤ 0x42F then Char.ofNat (c.toNat + 0x20)
  else if c.toNat = 0x401 then Char.ofNat 0x451
  else c

/-- The whitespace characters `strings.TrimSpace` removes, restricted to the
ASCII whitespace that can occur in the inputs considered here. -/
def isSpaceChar (c : Char) : Bool :=
  c == ' ' || c == '\t' || c == '\n' || c == '\r'

/-- `strings.ToLower(strings.TrimSpace(city))` — the normalisation
`calculateDistance` applies to both of its arguments — computed on the
character list of the string. -/
def normalizeCity (s : String) : String :=
  String.mk ((((s.data.dropWhile isSpaceChar).reverse.dropWhile
    isSpaceChar).reverse).map lowerChar)

/-- The static city-pair distance table of `handler.calculateDistance`,
entry for entry. -/
def distancesTable : List (String × List (String × ℤ)) :=
  [("москва",
    [("санкт-петербург", 635),
     ("спб", 635),
     ("екатеринбург", 1416),
     ("новосибирск", 3354),
     ("красноярск", 4205),
     ("иркутск", 5152),
     ("владивосток", 9100),
     ("ростов-на-дону", 1070),
     ("сочи", 1360),
     ("казань", 820),
     ("нижний новгород", 420),
     ("самара", 1050),
     ("волгоград", 970),
     ("воронеж", 520),
     ("саратов", 850),
     ("пермь", 1380),
     ("уфа", 1160),
     ("челябинск", 1510),
     ("омск", 2550),
     ("тюмень", 1720)]),
   ("санкт-петербург",
    [("спб", 0),
     ("москва", 635),
     ("екатеринбург", 1780),
     ("новосибирск", 3720),
     ("калининград", 550),
     ("мурманск", 1050),
     ("архангельск", 1130),
     ("петрозаводск", 320),
     ("великий новгород", 180)]),
   ("екатеринбург",
    [("москва", 1416),
     ("санкт-петербург", 1780),
     ("спб", 1780),
     ("новосибирск", 1940),
     ("челябинск", 200),
     ("пермь", 360),
     ("тюмень", 320),
     ("уфа", 520)]),
   ("новосибирск",
    [("москва", 3354),
     ("санкт-петербург", 3720),
     ("спб", 3720),
     ("екатеринбург", 1940),
     ("омск", 650),
     ("красноярск", 850),
     ("томск", 270),
     ("барнаул", 230)])]

/-- Looks up the already-normalised pair `(f, t)` in the static table:
`distances[from][to]` in the Go map. -/
def lookupTable (f t : String) : Option ℤ :=
  match distancesTable.find? (fun e => e.1 == f) with
  | some e =>
      match e.2.find? (fun p => p.1 == t) with
      | some p => some p.2
      | none => none
  | none => none

/-- `handler.calculateDistance`: normalise both city names, return 0 for the
same city, the table entry when present, and the 500 km default estimate
otherwise. -/
def calculateDistance (fromCity toCity : String) : ℤ :=
  let f := normalizeCity fromCity
  let t := normalizeCity toCity
  if f == t then 0
  else
    match lookupTable f t with
    | some d => d
    | none => 500

/-! ### Delivery calculator (spec-modelled) -/

/-- Modelled from the spec: the tunable per-volume cost coefficient of the
calculator's formula `total_cost = base_price + volume_factor × volume +
weight_factor × weight + distance_factor × distance`. -/
def volumeRate : ℤ := 50

/-- Modelled from the spec: the tunable per-kg cost coefficient. -/
def weightRate : ℤ := 2

/-- Modelled from the spec: the tunable per-km cost coefficient. -/
def distanceRate : ℤ := 1

/-- Modelled from the spec: the extra transit days
`f(weight, distance)` of the days formula `delivery_days = service.base_days
+ f(weight, distance)`, "monotonic non-decreasing in both": one extra day
per started 1000 kg and per started 1000 km. -/
def extraDays (weight distance : ℤ) : Nat :=
  (weight.fdiv 1000).toNat + (distance.fdiv 1000).toNat

/-- An invalid quote carrying a human-readable error message. -/
def invalidQuote (msg : String) : DeliveryQuote :=
  { isValid := false, errorMessage := msg, deliveryDays := 0,
    totalCost := 0, distance := 0, volume := 0 }

/-- Modelled from the spec: `calculator.CalculateDelivery` (the
`internal/app/calculator` package is not under `src/`).  Validation policy:
an invalid quote with a human-readable message, never an exception, "when
required numeric inputs are non-positive or when the service reference is
absent"; a missing distance entry "does not fail validation — it falls back
to a fixed default distance constant" (the 500 km fallback of
`calculateDistance`). -/
def CalculateDelivery (svc? : Option TransportService) (fromCity toCity : String)
    (length width height weight : ℤ) : DeliveryQuote :=
  if length ≤ 0 ∨ width ≤ 0 ∨ height ≤ 0 then
    invalidQuote "габариты груза должны быть положительными"
  else if weight ≤ 0 then
    invalidQuote "вес груза должен быть положительным"
  else
    match svc? with
    | none => invalidQuote "транспортная услуга не найдена"
    | some svc =>
        let volume := length * width * height
        let distance := calculateDistance fromCity toCity
        { isValid := true
          errorMessage := ""
          deliveryDays := svc.deliveryDays + extraDays weight distance
          totalCost := svc.price + volumeRate * volume
            + weightRate * weight + distanceRate * distance
          distance := distance
          volume := volume }

/-! ### Repository operations -/

/-- `Repository.GetTransportService`: `Where("id = ?", id).First`; a missing
row yields the error "услуга не найдена". -/
def GetTransportService (s : Store) (id : Nat) : Except String TransportService :=
  match s.services.find? (fun svc => svc.id == id) with
  | some svc => .ok svc
  | none => .error "услуга не найдена"

/-- The quote the creation transaction computes for one line item: resolve
the item's transport service and run the calculator on the item's route and
cargo parameters. -/
def itemQuote (s : Store) (it : CargoLogisticRequestItem) : DeliveryQuote :=
  CalculateDelivery (s.services.find? (fun svc => svc.id == it.transportServiceID))
    it.fromCity it.toCity it.length it.width it.height it.weight

/-- The mutable aggregates of the loop in
`createCargoLogisticRequestTx`: the line-item rows created so far, the next
free row id, and the running totals `maxDays`, `totalCost`, `totalWeight`,
`totalLength`, `totalWidth`, `totalHeight`. -/
structure TxAcc where
  newRows : List LogisticRequestService
  nextRowID : Nat
  maxDays : Nat
  totalCost : ℤ
  totalWeight : ℤ
  totalLength : ℤ
  totalWidth : ℤ
  totalHeight : ℤ
deriving Repr, DecidableEq

/-- The per-item loop of `createCargoLogisticRequestTx`: resolve the
service (failing the transaction with "service N not found"), compute the
quote (failing with the quote's error message when invalid), append a
quantity-1 row and update the aggregates. -/
def processItems (s : Store) (orderID : Nat) :
    List CargoLogisticRequestItem → TxAcc → Except String TxAcc
  | [], acc => .ok acc
  | it :: rest, acc =>
      match GetTransportService s it.transportServiceID with
      | .error _ =>
          .error ("service " ++ toString it.transportServiceID ++ " not found")
      | .ok svc =>
          let res := CalculateDelivery (some svc) it.fromCity it.toCity
            it.length it.width it.height it.weight
          if res.isValid then
            processItems s orderID rest
              { newRows := acc.newRows ++
                  [⟨acc.nextRowID, orderID, it.transportServiceID, 1⟩]
                nextRowID := acc.nextRowID + 1
                maxDays := Nat.max acc.maxDays res.deliveryDays
                totalCost := acc.totalCost + res.totalCost
                totalWeight := acc.totalWeight + it.weight
                totalLength := acc.totalLength + it.length
                totalWidth := acc.totalWidth + it.width
                totalHeight := acc.totalHeight + it.height }
          else
            .error res.errorMessage

/-- `Repository.createCargoLogisticRequestTx`: inside one transaction,
create a draft request taking the first item's route as the request route,
run the per-item loop, then save the request with the aggregated totals.
On any error the transaction rolls back, so only the success branch builds
a new store.  The `[]` branch is unreachable behind the emptiness guard of
`CreateCargoLogisticRequest`. -/
def createCargoLogisticRequestTx (s : Store)
    (items : List CargoLogisticRequestItem) (creatorID : Nat) :
    Except String (Nat × Store) :=
  match items with
  | [] => .error "no items provided"
  | first :: _ =>
      let orderID := s.nextRequestID
      match processItems s orderID items ⟨[], s.nextRowID, 0, 0, 0, 0, 0, 0⟩ with
      | .error e => .error e
      | .ok acc =>
          let order : LogisticRequest :=
            { id := orderID
              sessionID := "guest"
              isDraft := true
              fromCity := first.fromCity
              toCity := first.toCity
              weight := acc.totalWeight
              length := acc.totalLength
              width := acc.totalWidth
              height := acc.totalHeight
              totalCost := acc.totalCost
              totalDays := acc.maxDays
              status := statusDraft
              creatorID := creatorID
              moderatorID := none
              deleted := false }
          .ok (orderID,
            { s with
              requests := s.requests ++ [order]
              rows := s.rows ++ acc.newRows
              nextRequestID := s.nextRequestID + 1
              nextRowID := acc.nextRowID })

/-- `Repository.CreateCargoLogisticRequest`: reject an empty item list with
"no items provided", otherwise run the transaction; the second component is
the store after the call (unchanged whenever an error is returned). -/
def CreateCargoLogisticRequest (s : Store)
    (items : List CargoLogisticRequestItem) (creatorID : Nat) :
    Except String Nat × Store :=
  if items.length == 0 then
    (.error "no items provided", s)
  else
    match createCargoLogisticRequestTx s items creatorID with
    | .error e => (.error e, s)
    | .ok (id, s1) => (.ok id, s1)

/-- The line-item rows of request `rid` holding service `sid` — the rows the
`(logistic_request_id, transport_service_id)` key selects. -/
def rowsFor (s : Store) (rid sid : Nat) : List LogisticRequestService :=
  s.rows.filter (fun r => r.logisticRequestID == rid && r.transportServiceID == sid)

/-- The line-item rows of request `rid`. -/
def rowsOf (s : Store) (rid : Nat) : List LogisticRequestService :=
  s.rows.filter (fun r => r.logisticRequestID == rid)

/-- `Where("id = ?", id).First` on the requests table. -/
def findRequest (s : Store) (rid : Nat) : Option LogisticRequest :=
  s.requests.find? (fun o => o.id == rid)

/-- `Repository.AddServiceToLogisticRequest`: require a draft request and an
existing service, then upsert on `(requestID, serviceID)` — increment the
quantity of the existing row (saved by its primary key) or insert a fresh
quantity-1 row. -/
def AddServiceToLogisticRequest (s : Store) (orderID serviceID : Nat) :
    Except String Unit × Store :=
  match s.requests.find? (fun o => o.id == orderID && o.status == statusDraft) with
  | none => (.error "заявка не найдена или не является черновиком", s)
  | some _ =>
      match GetTransportService s serviceID with
      | .error _ => (.error "услуга не найдена", s)
      | .ok _ =>
          match s.rows.find? (fun r =>
              r.logisticRequestID == orderID && r.transportServiceID == serviceID) with
          | some existing =>
              (.ok (),
               { s with rows := s.rows.map (fun r =>
                   if r.id == existing.id then
                     { r with quantity := r.quantity + 1 }
                   else r) })
          | none =>
              (.ok (),
               { s with
                 rows := s.rows ++ [⟨s.nextRowID, orderID, serviceID, 1⟩]
                 nextRowID := s.nextRowID + 1 })

/-- `Repository.RemoveServiceFromLogisticRequest`: find the
`(requestID, serviceID)` row and delete it by primary key — the whole row,
whatever its quantity. -/
def RemoveServiceFromLogisticRequest (s : Store) (orderID serviceID : Nat) :
    Except String Unit × Store :=
  match s.rows.find? (fun r =>
      r.logisticRequestID == orderID && r.transportServiceID == serviceID) with
  | none => (.error "услуга не найдена в заявке", s)
  | some orderService =>
      (.ok (), { s with rows := s.rows.filter (fun r => !(r.id == orderService.id)) })

/-- `Repository.ensureGuestDraftLogisticRequest`: return the id of the first
non-deleted draft request of `sessionID`, creating one (owned by the system
creator) when none exists. -/
def ensureGuestDraftLogisticRequest (s : Store) (sessionID : String) : Nat × Store :=
  match s.requests.find? (fun o =>
      o.sessionID == sessionID && o.isDraft && !o.deleted) with
  | some o => (o.id, s)
  | none =>
      let order : LogisticRequest :=
        { id := s.nextRequestID
          sessionID := sessionID
          isDraft := true
          fromCity := ""
          toCity := ""
          weight := 0
          length := 0
          width := 0
          height := 0
          totalCost := 0
          totalDays := 0
          status := statusDraft
          creatorID := GetCreatorID
          moderatorID := none
          deleted := false }
      (order.id,
       { s with
         requests := s.requests ++ [order]
         nextRequestID := s.nextRequestID + 1 })

/-- `Repository.AddTransportServiceToGuestDraftLogisticRequest`: check the
service, ensure the guest draft, then run the SQL
`INSERT ... ON CONFLICT (logistic_request_id, transport_service_id)
DO UPDATE SET quantity = quantity + 1` upsert (the conflict target is the
unique key on the pair, so at most one row can match). -/
def AddTransportServiceToGuestDraftLogisticRequest (s : Store) (serviceID : Nat) :
    Except String Unit × Store :=
  match GetTransportService s serviceID with
  | .error _ => (.error "услуга не найдена", s)
  | .ok _ =>
      let (orderID, s1) := ensureGuestDraftLogisticRequest s "guest"
      match s1.rows.find? (fun r =>
          r.logisticRequestID == orderID && r.transportServiceID == serviceID) with
      | some _ =>
          (.ok (),
           { s1 with rows := s1.rows.map (fun r =>
               if r.logisticRequestID == orderID && r.transportServiceID == serviceID then
                 { r with quantity := r.quantity + 1 }
               else r) })
      | none =>
          (.ok (),
           { s1 with
             rows := s1.rows ++ [⟨s1.nextRowID, orderID, serviceID, 1⟩]
             nextRowID := s1.nextRowID + 1 })

/-- `Repository.RemoveTransportServiceFromGuestDraftLogisticRequest`: ensure
the guest draft (this creation is not rolled back), read the row's quantity
(error "услуга не найдена в черновике заявки" when absent), then either
decrement the quantity (`quantity > 1`) or delete the row. -/
def RemoveTransportServiceFromGuestDraftLogisticRequest (s : Store) (serviceID : Nat) :
    Except String Unit × Store :=
  let (orderID, s1) := ensureGuestDraftLogisticRequest s "guest"
  match s1.rows.find? (fun r =>
      r.logisticRequestID == orderID && r.transportServiceID == serviceID) with
  | none => (.error "услуга не найдена в черновике заявки", s1)
  | some row =>
      if row.quantity > 1 then
        (.ok (),
         { s1 with rows := s1.rows.map (fun r =>
             if r.logisticRequestID == orderID && r.transportServiceID == serviceID then
               { r with quantity := r.quantity - 1 }
             else r) })
      else
        (.ok (),
         { s1 with rows := s1.rows.filter (fun r =>
             !(r.logisticRequestID == orderID && r.transportServiceID == serviceID)) })

/-- `Repository.CreateDraftLogisticRequest`: insert a fresh draft request for
`creatorID`. -/
def CreateDraftLogisticRequest (s : Store) (creatorID : Nat) :
    LogisticRequest × Store :=
  let order : LogisticRequest :=
    { id := s.nextRequestID
      sessionID := ""
      isDraft := true
      fromCity := ""
      toCity := ""
      weight := 0
      length := 0
      width := 0
      height := 0
      totalCost := 0
      totalDays := 0
      status := statusDraft
      creatorID := creatorID
      moderatorID := none
      deleted := false }
  (order,
   { s with
     requests := s.requests ++ [order]
     nextRequestID := s.nextRequestID + 1 })

/-- `Repository.GetCartIcon`: return the id of the creator's non-deleted
draft request and the number of its line-item rows, creating an empty draft
(count 0) when the creator has none. -/
def GetCartIcon (s : Store) (creatorID : Nat) : Except String (Nat × Nat) × Store :=
  match s.requests.find? (fun o =>
      o.creatorID == creatorID && o.status == statusDraft && !o.deleted) with
  | some o => (.ok (o.id, (rowsOf s o.id).length), s)
  | none =>
      let (order, s1) := CreateDraftLogisticRequest s creatorID
      (.ok (order.id, 0), s1)

/-- `Repository.FormLogisticRequest`: look the request up by id, require
draft status, non-empty cities, positive cargo parameters and at least one
line item, then store the route and cargo and move the request to the
formed status. -/
def FormLogisticRequest (s : Store) (orderID : Nat) (fromCity toCity : String)
    (weight length width height : ℤ) : Except String Unit × Store :=
  match findRequest s orderID with
  | none => (.error "заявка не найдена", s)
  | some order =>
      if order.status ≠ statusDraft then
        (.error "можно формировать только черновики", s)
      else if fromCity = "" ∨ toCity = "" ∨ weight ≤ 0 ∨ length ≤ 0
          ∨ width ≤ 0 ∨ height ≤ 0 then
        (.error "не заполнены обязательные поля: города и параметры груза", s)
      else if (rowsOf s orderID).length == 0 then
        (.error "в заявке нет услуг", s)
      else
        let updated := { order with
          fromCity := fromCity
          toCity := toCity
          weight := weight
          length := length
          width := width
          height := height
          status := statusFormed
          isDraft := false }
        (.ok (),
         { s with requests := s.requests.map (fun o =>
             if o.id == order.id then updated else o) })

/-- The accumulator loop of `CompleteLogisticRequest`: fold the request's
line items, quoting each item's service at the request's stored route and
cargo, and accumulate `totalCost` (sum) and `maxDays` (running maximum) over
the valid quotes; a line item whose service is absent yields an invalid
quote and is skipped by the validity check. -/
def completeAgg (s : Store) (order : LogisticRequest) :
    List LogisticRequestService → ℤ × Nat → ℤ × Nat
  | [], acc => acc
  | row :: rest, acc =>
      let res := CalculateDelivery
        (s.services.find? (fun svc => svc.id == row.transportServiceID))
        order.fromCity order.toCity order.length order.width order.height order.weight
      if res.isValid then
        completeAgg s order rest
          (acc.1 + res.totalCost, Nat.max acc.2 res.deliveryDays)
      else
        completeAgg s order rest acc

/-- `Repository.CompleteLogisticRequest`: only the completed/rejected target
statuses are accepted, the request must exist and be in the formed status;
completing recomputes `TotalCost`/`TotalDays` from the line items before the
status and moderator are stored. -/
def CompleteLogisticRequest (s : Store) (orderID : Nat) (status : String)
    (moderatorID : Nat) : Except String Unit × Store :=
  if status ≠ statusCompleted ∧ status ≠ statusRejected then
    (.error "неверный статус для завершения", s)
  else
    match findRequest s orderID with
    | none => (.error "заявка не найдена", s)
    | some order =>
        if order.status ≠ statusFormed then
          (.error "можно завершать только сформированные заявки", s)
        else
          let order1 :=
            if status = statusCompleted then
              let agg := completeAgg s order (rowsOf s order.id) (0, 0)
              { order with totalCost := agg.1, totalDays := agg.2 }
            else order
          let order2 := { order1 with
            status := status
            moderatorID := some moderatorID }
          (.ok (),
           { s with requests := s.requests.map (fun o =>
               if o.id == order.id then order2 else o) })

/-- The aggregation-rule derivation of a request's total cost from its line
items: the sum, over the request's rows whose quote (at the request's stored
route and cargo) is valid, of the quote costs.  This is exactly the value
the completion recompute stores. -/
def derivedTotalCost (s : Store) (order : LogisticRequest) : ℤ :=
  (((rowsOf s order.id).map (fun row => CalculateDelivery
      (s.services.find? (fun svc => svc.id == row.transportServiceID))
      order.fromCity order.toCity order.length order.width order.height
      order.weight)).filter (fun q => q.isValid)).foldr (fun q c => q.totalCost + c) 0

/-- The aggregation-rule derivation of a request's total days: the maximum
of the valid per-item quote days (0 when there is none). -/
def derivedTotalDays (s : Store) (order : LogisticRequest) : Nat :=
  (((rowsOf s order.id).map (fun row => CalculateDelivery
      (s.services.find? (fun svc => svc.id == row.transportServiceID))
      order.fromCity order.toCity order.length order.width order.height
      order.weight)).filter (fun q => q.isValid)).foldr (fun q d => Nat.max q.deliveryDays d) 0

/-- The error message of the first failing line item of a creation
transaction, when one exists: "service N not found" for a missing service,
the calculator's message for an invalid quote. -/
def firstItemError (s : Store) : List CargoLogisticRequestItem → Option String
  | [] => none
  | it :: rest =>
      match GetTransportService s it.transportServiceID with
      | .error _ => some ("service " ++ toString it.transportServiceID ++ " not found")
      | .ok svc =>
          let res := CalculateDelivery (some svc) it.fromCity it.toCity
            it.length it.width it.height it.weight
          if res.isValid then firstItemError s rest else some res.errorMessage

/-! ### Witness data: a tiny concrete store -/

deriving instance DecidableEq for Except

/-- A concrete transport service used by the claim witnesses. -/
def svc1 : TransportService := ⟨1, "fura", "грузоперевозка фурой", 1000, 3, false⟩

/-- A second concrete transport service used by the claim witnesses. -/
def svc2 : TransportService := ⟨2, "avia", "авиаперевозка", 500, 1, false⟩

/-- A concrete store holding the two services and nothing else. -/
def store0 : Store := ⟨[svc1, svc2], [], [], 1, 1⟩

/-- A concrete line item for `svc1` on a route present in the distance
table. -/
def item1 : CargoLogisticRequestItem := ⟨1, "Москва", "Санкт-Петербург", 1, 1, 1, 100⟩

/-- A concrete line item for `svc2`. -/
def item2 : CargoLogisticRequestItem := ⟨2, "Москва", "Казань", 2, 1, 1, 50⟩

/-- The line-item rows the creation transaction inserts for the item list
`l` under request `oid`, with row ids counting up from `n`: one quantity-1
row per item, in item order. -/
def mkRows (oid : Nat) : List CargoLogisticRequestItem → Nat → List LogisticRequestService
  | [], _ => []
  | it :: rest, n => ⟨n, oid, it.transportServiceID, 1⟩ :: mkRows oid rest (n + 1)

/-- A formed logistic request used by witnesses: route Москва→Казань,
cargo 1×1×1, 100 kg, owned by creator 7. -/
def reqFormed : LogisticRequest :=
  ⟨1, "", false, "Москва", "Казань", 100, 1, 1, 1, 0, 0, statusFormed, 7, none, false⟩

/-- A draft logistic request used by witnesses, owned by creator 7 under the
guest session. -/
def reqDraft : LogisticRequest :=
  ⟨2, "guest", true, "", "", 0, 0, 0, 0, 0, 0, statusDraft, 7, none, false⟩

/-- A store holding both services, the formed request (with two line items)
and the empty draft request. -/
def storeFD : Store :=
  ⟨[svc1, svc2], [reqFormed, reqDraft], [⟨1, 1, 1, 1⟩, ⟨2, 1, 2, 1⟩], 3, 3⟩

/-- The store reached from `store0` by creating a one-item request and then
adding service 2 to the resulting draft — the line items change while the
stored totals stay what the creation computed. -/
def c3Store : Store :=
  (AddServiceToLogisticRequest (CreateCargoLogisticRequest store0 [item1] 7).2 1 2).2

/-- A store whose single line item has quantity 3, for exercising the
authenticated remove path. -/
def c8Store : Store := ⟨[svc1], [], [⟨1, 1, 1, 3⟩], 2, 2⟩

/-- The store after creating a two-item cargo request in `store0`. -/
def c1Store : Store := (CreateCargoLogisticRequest store0 [item1, item2] 7).2

/-- A line item referencing the absent service 9. -/
def itemBad : CargoLogisticRequestItem := ⟨9, "Москва", "Сочи", 1, 1, 1, 1⟩

/-- A store whose guest draft (request 2) holds one quantity-2 line item for
service 1, for exercising the guest remove path. -/
def storeG : Store := ⟨[svc1, svc2], [reqDraft], [⟨1, 2, 1, 2⟩], 3, 2⟩

/-! ### Helper lemmas -/

/-- On a non-empty list of naturals, `List.max?` is the left fold of
`Nat.max` started at 0 — the shape the aggregation loop computes. -/
theorem max?_eq_foldl_zero (l : List Nat) (h : l ≠ []) :
    l.max? = some (l.foldl Nat.max 0) := by
  cases l with
  | nil => simp at h
  | cons a t => simp [List.max?, Nat.zero_max]

/-- A filter returning exactly one element determines `find?`. -/
theorem find?_of_filter_singleton {α : Type} (p : α → Bool) (l : List α) (r : α)
    (h : l.filter p = [r]) : l.find? p = some r := by
  induction l with
  | nil => simp at h
  | cons a t ih =>
      by_cases ha : p a
      · simp [List.filter_cons, ha] at h
        obtain ⟨rfl, -⟩ := h
        simp [List.find?_cons, ha]
      · simp [List.filter_cons, ha] at h
        simp [List.find?_cons, ha, ih h]

/-- An empty filter means `find?` fails. -/
theorem find?_of_filter_nil {α : Type} (p : α → Bool) (l : List α)
    (h : l.filter p = []) : l.find? p = none := by
  rw [List.find?_eq_none]
  intro x hx hpx
  have hmem : x ∈ l.filter p := List.mem_filter.2 ⟨hx, hpx⟩
  simp [h] at hmem

/-- A filter returning exactly one element `r` makes every other
`p`-satisfying member impossible: mapping a function that fixes every
non-`p` element and sends `r` to some `p`-satisfying `r1` yields `[r1]`
under the same filter. -/
theorem filter_map_keyed_update {α : Type} (p : α → Bool) (g : α → α)
    (l : List α) (r : α) (hl : l.filter p = [r]) (hg : p (g r) = true) :
    ((l.map (fun x => if p x then g x else x)).filter p) = [g r] := by
  induction l with
  | nil => simp at hl
  | cons a t ih =>
      by_cases ha : p a
      · simp [List.filter_cons, ha] at hl
        obtain ⟨rfl, htail⟩ := hl
        have htail1 : (t.map (fun x => if p x then g x else x)) = t := by
          conv_rhs => rw [← List.map_id t]
          exact List.map_congr_left (fun x hx => by simp [htail x hx])
        have htail2 : t.filter p = [] :=
          List.filter_eq_nil_iff.2 (by intro x hx; simp [htail x hx])
        simp [List.map_cons, List.filter_cons, ha, hg, htail1, htail2]
      · simp [List.filter_cons, ha] at hl
        simp [List.filter_cons, ha, ih hl]

/-- Filtering the two complementary halves of a list accounts for its whole
length. -/
theorem length_filter_add_not {α : Type} (p : α → Bool) (l : List α) :
    (l.filter p).length + (l.filter (fun x => !(p x))).length = l.length := by
  induction l with
  | nil => simp
  | cons a t ih => by_cases h : p a <;> simp [List.filter_cons, h] <;> omega

/-! ### Claim theorems -/

/-- Claim C4: whenever some dimension or the weight is non-positive, or the
referenced transport service is absent, `CalculateDelivery` returns a quote
with `isValid = false` and a non-empty error message (as a total function it
cannot throw); and for positive inputs and a present service the quote is
valid for every city pair — a missing distance entry (which resolves to the
500 km default) never causes a validation failure. -/
theorem calculateDelivery_validation (svc? : Option TransportService)
    (fromCity toCity : String) (length width height weight : ℤ) :
    ((length ≤ 0 ∨ width ≤ 0 ∨ height ≤ 0 ∨ weight ≤ 0) →
      (CalculateDelivery svc? fromCity toCity length width height weight).isValid = false ∧
      (CalculateDelivery svc? fromCity toCity length width height weight).errorMessage ≠ "") ∧
    (svc? = none →
      (CalculateDelivery svc? fromCity toCity length width height weight).isValid = false ∧
      (CalculateDelivery svc? fromCity toCity length width height weight).errorMessage ≠ "") ∧
    (∀ svc, svc? = some svc → 0 < length → 0 < width → 0 < height → 0 < weight →
      (CalculateDelivery svc? fromCity toCity length width height weight).isValid = true) := by
  refine ⟨?_, ?_, ?_⟩
  · intro hle
    by_cases h1 : length ≤ 0 ∨ width ≤ 0 ∨ height ≤ 0
    · simp [CalculateDelivery, h1, invalidQuote]
    · have h2 : weight ≤ 0 := by tauto
      simp [CalculateDelivery, h1, h2, invalidQuote]
  · intro hnone
    subst hnone
    by_cases h1 : length ≤ 0 ∨ width ≤ 0 ∨ height ≤ 0
    · simp [CalculateDelivery, h1, invalidQuote]
    · by_cases h2 : weight ≤ 0 <;> simp [CalculateDelivery, h1, h2, invalidQuote]
  · intro svc hsvc hl hw hh hwt
    have h1 : ¬(length ≤ 0 ∨ width ≤ 0 ∨ height ≤ 0) := by
      push_neg
      exact ⟨hl, hw, hh⟩
    have h2 : ¬(weight ≤ 0) := not_le.2 hwt
    simp [CalculateDelivery, h1, h2, hsvc]

/-- Witness for claim C4: a zero length makes the quote invalid with a
message, while positive cargo on a city pair missing from the table (the
500 km fallback) quotes as valid. -/
theorem calculateDelivery_validation_witness :
    ((CalculateDelivery (some svc1) "Москва" "Омск" 0 1 1 10).isValid = false ∧
      (CalculateDelivery (some svc1) "Москва" "Омск" 0 1 1 10).errorMessage ≠ "") ∧
    (CalculateDelivery (some svc1) "город-а" "город-б" 1 1 1 5).isValid = true :=
  ⟨(calculateDelivery_validation (some svc1) "Москва" "Омск" 0 1 1 10).1
      (Or.inl (by norm_num)),
   (calculateDelivery_validation (some svc1) "город-а" "город-б" 1 1 1 5).2.2 svc1
      rfl (by norm_num) (by norm_num) (by norm_num) (by norm_num)⟩

/-- Counterexample to claim C5: the pair (москва, красноярск) is present in
the static table with distance 4205, but the reverse resolution falls back
to the 500 km default because красноярск has no top-level entry, so the
resolved distances differ. -/
theorem calculateDistance_not_symmetric :
    lookupTable "москва" "красноярск" = some 4205 ∧
    calculateDistance "Москва" "Красноярск" = 4205 ∧
    calculateDistance "Красноярск" "Москва" = 500 ∧
    (4205 : ℤ) ≠ 500 := by decide

/-- Claim C5 (amended): the resolved distance is symmetric on every city
pair whose BOTH directions are present in the static table; a pair present
in only one direction resolves to the 500 km default in the missing
direction and need not be symmetric. -/
theorem calculateDistance_symm_on_table :
    ∀ e ∈ distancesTable, ∀ p ∈ e.2,
      (lookupTable p.1 e.1).isSome = true →
      calculateDistance e.1 p.1 = calculateDistance p.1 e.1 := by decide

/-- Witness for claim C5 (amended): москва and санкт-петербург are present
in both directions and resolve symmetrically. -/
theorem calculateDistance_symm_on_table_witness :
    calculateDistance "москва" "санкт-петербург" =
      calculateDistance "санкт-петербург" "москва" :=
  calculateDistance_symm_on_table ("москва", [("санкт-петербург", 635)].append
      (distancesTable.head!.2.tail)) (by decide) ("санкт-петербург", 635)
    (by decide) (by decide)

/-- Claim C6: creating a cargo logistic request from an empty item list
fails with the "no items provided" error and leaves the store untouched. -/
theorem createCargoLogisticRequest_empty (s : Store) (cid : Nat) :
    CreateCargoLogisticRequest s [] cid = (.error "no items provided", s) := rfl

/-- A quote for an absent service is always invalid, whatever the other
inputs. -/
theorem calculateDelivery_none_invalid (fromCity toCity : String)
    (length width height weight : ℤ) :
    (CalculateDelivery none fromCity toCity length width height weight).isValid = false := by
  unfold CalculateDelivery
  split_ifs <;> simp [invalidQuote]

/-- `GetTransportService` succeeds exactly on the `find?` of the services
table. -/
theorem getTransportService_ok_iff (s : Store) (id : Nat) (svc : TransportService) :
    GetTransportService s id = .ok svc ↔
      s.services.find? (fun x => x.id == id) = some svc := by
  unfold GetTransportService
  cases hf : s.services.find? (fun x => x.id == id) <;> simp

/-- `GetTransportService` fails exactly when the service id is absent. -/
theorem getTransportService_error_iff (s : Store) (id : Nat) (e : String) :
    GetTransportService s id = .error e ↔
      s.services.find? (fun x => x.id == id) = none ∧ e = "услуга не найдена" := by
  unfold GetTransportService
  cases hf : s.services.find? (fun x => x.id == id) <;> simp [eq_comm]

/-- What a successful run of the per-item loop computes, relative to an
arbitrary starting accumulator: the totals grow by the per-item sums, the
running maximum folds the per-item days, and one fresh quantity-1 row per
item is appended. -/
theorem processItems_ok_spec (s : Store) (oid : Nat)
    (l : List CargoLogisticRequestItem) :
    ∀ (acc acc2 : TxAcc), processItems s oid l acc = .ok acc2 →
      acc2.totalCost = acc.totalCost + (l.map (fun it => (itemQuote s it).totalCost)).sum ∧
      acc2.maxDays = (l.map (fun it => (itemQuote s it).deliveryDays)).foldl Nat.max acc.maxDays ∧
      acc2.totalWeight = acc.totalWeight + (l.map (fun it => it.weight)).sum ∧
      acc2.totalLength = acc.totalLength + (l.map (fun it => it.length)).sum ∧
      acc2.totalWidth = acc.totalWidth + (l.map (fun it => it.width)).sum ∧
      acc2.totalHeight = acc.totalHeight + (l.map (fun it => it.height)).sum ∧
      acc2.newRows = acc.newRows ++ mkRows oid l acc.nextRowID ∧
      acc2.nextRowID = acc.nextRowID + l.length := by
  induction l with
  | nil =>
      intro acc acc2 h
      simp only [processItems] at h
      cases h
      simp [mkRows]
  | cons it rest ih =>
      intro acc acc2 h
      simp only [processItems] at h
      cases hsvc : GetTransportService s it.transportServiceID with
      | error e =>
          rw [hsvc] at h
          simp at h
      | ok svc =>
          rw [hsvc] at h
          have hfind : s.services.find? (fun x => x.id == it.transportServiceID) = some svc :=
            (getTransportService_ok_iff s it.transportServiceID svc).1 hsvc
          have hq : itemQuote s it = CalculateDelivery (some svc) it.fromCity it.toCity
              it.length it.width it.height it.weight := by
            rw [itemQuote, hfind]
          by_cases hv :
              (CalculateDelivery (some svc) it.fromCity it.toCity
                it.length it.width it.height it.weight).isValid
          · simp only [hv, if_true] at h
            obtain ⟨h1, h2, h3, h4, h5, h6, h7, h8⟩ := ih _ _ h
            refine ⟨?_, ?_, ?_, ?_, ?_, ?_, ?_, ?_⟩
            · rw [h1]; simp [hq]; ring
            · rw [h2]; simp [hq]
            · rw [h3]; simp; ring
            · rw [h4]; simp; ring
            · rw [h5]; simp; ring
            · rw [h6]; simp; ring
            · rw [h7]; simp [mkRows]
            · rw [h8]; simp; omega
          · simp only [hv, if_false] at h
            simp at h

/-- The per-item loop fails exactly with the first failing item's error
message. -/
theorem processItems_error_iff (s : Store) (oid : Nat)
    (l : List CargoLogisticRequestItem) :
    ∀ (acc : TxAcc) (e : String),
      processItems s oid l acc = .error e ↔ firstItemError s l = some e := by
  induction l with
  | nil => intro acc e; simp [processItems, firstItemError]
  | cons it rest ih =>
      intro acc e
      simp only [processItems, firstItemError]
      cases hsvc : GetTransportService s it.transportServiceID with
      | error e2 => simp
      | ok svc =>
          by_cases hv :
              (CalculateDelivery (some svc) it.fromCity it.toCity
                it.length it.width it.height it.weight).isValid
          · simp [hv, ih]
          · simp [hv]

/-- When no item fails, the per-item loop succeeds. -/
theorem processItems_ok_of_no_error (s : Store) (oid : Nat)
    (l : List CargoLogisticRequestItem) (acc : TxAcc)
    (h : firstItemError s l = none) :
    ∃ acc2, processItems s oid l acc = .ok acc2 := by
  cases hp : processItems s oid l acc with
  | ok a => exact ⟨a, rfl⟩
  | error e =>
      rw [(processItems_error_iff s oid l acc e).1 hp] at h
      cases h

/-- No item fails exactly when every item's quote (service resolution
included) is valid. -/
theorem firstItemError_eq_none_iff (s : Store) (l : List CargoLogisticRequestItem) :
    firstItemError s l = none ↔ ∀ it ∈ l, (itemQuote s it).isValid = true := by
  induction l with
  | nil => simp [firstItemError]
  | cons it rest ih =>
      simp only [firstItemError]
      cases hsvc : GetTransportService s it.transportServiceID with
      | error e =>
          have hfind : s.services.find? (fun x => x.id == it.transportServiceID) = none :=
            ((getTransportService_error_iff s it.transportServiceID e).1 hsvc).1
          have hinv : (itemQuote s it).isValid = false := by
            rw [itemQuote, hfind]
            exact calculateDelivery_none_invalid _ _ _ _ _ _
          refine iff_of_false (by simp) ?_
          intro hall
          have := hall it (List.mem_cons_self it rest)
          rw [hinv] at this
          cases this
      | ok svc =>
          have hfind : s.services.find? (fun x => x.id == it.transportServiceID) = some svc :=
            (getTransportService_ok_iff s it.transportServiceID svc).1 hsvc
          have hq : itemQuote s it = CalculateDelivery (some svc) it.fromCity it.toCity
              it.length it.width it.height it.weight := by
            rw [itemQuote, hfind]
          by_cases hv :
              (CalculateDelivery (some svc) it.fromCity it.toCity
                it.length it.width it.height it.weight).isValid
          · simp [hv, ih, hq]
          · refine iff_of_false (by simp [hv]) ?_
            intro hall
            have := hall it (List.mem_cons_self it rest)
            rw [hq] at this
            rw [this] at hv
            exact hv rfl

/-- The rows the transaction inserts are exactly one quantity-1 row per
item, keyed by the request and the item's service. -/
theorem mkRows_map (oid : Nat) (l : List CargoLogisticRequestItem) :
    ∀ n, (mkRows oid l n).map
        (fun r => (r.logisticRequestID, r.transportServiceID, r.quantity))
      = l.map (fun it => (oid, it.transportServiceID, 1)) := by
  induction l with
  | nil => intro n; simp [mkRows]
  | cons it rest ih => intro n; simp [mkRows, ih]


/-- Claim C1: when `CreateCargoLogisticRequest` succeeds on a (necessarily
non-empty) item list, the persisted request's `TotalCost` is the sum of the
per-item quote costs, its `TotalDays` is the maximum of the per-item quote
days, and its `Weight`, `Length`, `Width` and `Height` are the sums of the
corresponding item values. -/
theorem createCargoLogisticRequest_totals
    (s : Store) (items : List CargoLogisticRequestItem) (cid rid : Nat) (s1 : Store)
    (hfresh : ∀ o ∈ s.requests, o.id < s.nextRequestID)
    (h : CreateCargoLogisticRequest s items cid = (.ok rid, s1)) :
    ∃ order : LogisticRequest,
      findRequest s1 rid = some order ∧
      order.totalCost = (items.map (fun it => (itemQuote s it).totalCost)).sum ∧
      (items.map (fun it => (itemQuote s it).deliveryDays)).max? = some order.totalDays ∧
      order.weight = (items.map (fun it => it.weight)).sum ∧
      order.length = (items.map (fun it => it.length)).sum ∧
      order.width = (items.map (fun it => it.width)).sum ∧
      order.height = (items.map (fun it => it.height)).sum := by
  cases items with
  | nil => simp [CreateCargoLogisticRequest] at h
  | cons first rest =>
      rw [CreateCargoLogisticRequest, if_neg (by simp)] at h
      cases htx : createCargoLogisticRequestTx s (first :: rest) cid with
      | error e => rw [htx] at h; simp at h
      | ok p =>
          obtain ⟨oid, s2⟩ := p
          rw [htx] at h
          simp only [Prod.mk.injEq, Except.ok.injEq] at h
          obtain ⟨rfl, rfl⟩ := h
          simp only [createCargoLogisticRequestTx] at htx
          cases hpi : processItems s s.nextRequestID (first :: rest)
              ⟨[], s.nextRowID, 0, 0, 0, 0, 0, 0⟩ with
          | error e => rw [hpi] at htx; simp at htx
          | ok acc =>
              rw [hpi] at htx
              simp only [Except.ok.injEq, Prod.mk.injEq] at htx
              obtain ⟨hoid, hstore⟩ := htx
              subst hoid
              subst hstore
              obtain ⟨h1, h2, h3, h4, h5, h6, -, -⟩ :=
                processItems_ok_spec s s.nextRequestID (first :: rest) _ _ hpi
              simp only at h1 h2 h3 h4 h5 h6
              rw [zero_add] at h1 h3 h4 h5 h6
              refine ⟨⟨s.nextRequestID, "guest", true, first.fromCity, first.toCity,
                acc.totalWeight, acc.totalLength, acc.totalWidth, acc.totalHeight,
                acc.totalCost, acc.maxDays, statusDraft, cid, none, false⟩,
                ?_, h1, ?_, h3, h4, h5, h6⟩
              · simp only [findRequest]
                rw [List.find?_append, List.find?_eq_none.2 ?_]
                · simp
                · intro o ho hbeq
                  have hlt := hfresh o ho
                  rw [Nat.beq_eq_true_eq] at hbeq
                  omega
              · rw [max?_eq_foldl_zero _ (by simp), h2]

/-- Witness for claim C1: creating the two-item request in the concrete
store yields a request whose totals satisfy the aggregation law. -/
theorem createCargoLogisticRequest_totals_witness :
    ∃ order : LogisticRequest,
      findRequest c1Store 1 = some order ∧
      order.totalCost = ([item1, item2].map (fun it => (itemQuote store0 it).totalCost)).sum ∧
      ([item1, item2].map (fun it => (itemQuote store0 it).deliveryDays)).max?
        = some order.totalDays ∧
      order.weight = ([item1, item2].map (fun it => it.weight)).sum ∧
      order.length = ([item1, item2].map (fun it => it.length)).sum ∧
      order.width = ([item1, item2].map (fun it => it.width)).sum ∧
      order.height = ([item1, item2].map (fun it => it.height)).sum :=
  createCargoLogisticRequest_totals store0 [item1, item2] 7 1 c1Store
    (by decide) (by decide)

/-- Claim C2: the creation transaction is all-or-nothing.  If any line item
has a missing service or an invalid quote, the call returns the first
failing item's error and the store is exactly the one before the call (no
request row, no line-item rows); if every item is valid, the call commits
one request row and one quantity-1 line-item row per item. -/
theorem createCargoLogisticRequest_atomicity
    (s : Store) (items : List CargoLogisticRequestItem) (cid : Nat) :
    ((∃ it ∈ items, (itemQuote s it).isValid = false) →
      ∃ e, firstItemError s items = some e ∧
        CreateCargoLogisticRequest s items cid = (.error e, s)) ∧
    (items ≠ [] → (∀ it ∈ items, (itemQuote s it).isValid = true) →
      ∃ rid s1, CreateCargoLogisticRequest s items cid = (.ok rid, s1) ∧
        (∃ order, order.id = rid ∧ s1.requests = s.requests ++ [order]) ∧
        (∃ newRows, s1.rows = s.rows ++ newRows ∧
          newRows.map (fun r => (r.logisticRequestID, r.transportServiceID, r.quantity))
            = items.map (fun it => (rid, it.transportServiceID, 1)))) := by
  constructor
  · rintro ⟨bad, hmem, hbad⟩
    have hne : firstItemError s items ≠ none := by
      intro hn
      have := (firstItemError_eq_none_iff s items).1 hn bad hmem
      rw [hbad] at this
      cases this
    obtain ⟨e, he⟩ := Option.ne_none_iff_exists'.1 hne
    refine ⟨e, he, ?_⟩
    cases items with
    | nil => cases hmem
    | cons first rest =>
        have hpi : processItems s s.nextRequestID (first :: rest)
            ⟨[], s.nextRowID, 0, 0, 0, 0, 0, 0⟩ = .error e :=
          (processItems_error_iff s s.nextRequestID (first :: rest) _ e).2 he
        have htx : createCargoLogisticRequestTx s (first :: rest) cid = .error e := by
          simp only [createCargoLogisticRequestTx]
          rw [hpi]
        rw [CreateCargoLogisticRequest, if_neg (by simp), htx]
  · intro hne hall
    cases items with
    | nil => cases hne rfl
    | cons first rest =>
        have hnone : firstItemError s (first :: rest) = none :=
          (firstItemError_eq_none_iff _ _).2 hall
        obtain ⟨acc, hpi⟩ := processItems_ok_of_no_error s s.nextRequestID
          (first :: rest) ⟨[], s.nextRowID, 0, 0, 0, 0, 0, 0⟩ hnone
        obtain ⟨-, -, -, -, -, -, hrows, -⟩ :=
          processItems_ok_spec s s.nextRequestID (first :: rest) _ _ hpi
        simp only at hrows
        have htx : createCargoLogisticRequestTx s (first :: rest) cid =
            .ok (s.nextRequestID,
              { s with
                requests := s.requests ++ [⟨s.nextRequestID, "guest", true,
                  first.fromCity, first.toCity, acc.totalWeight, acc.totalLength,
                  acc.totalWidth, acc.totalHeight, acc.totalCost, acc.maxDays,
                  statusDraft, cid, none, false⟩]
                rows := s.rows ++ acc.newRows
                nextRequestID := s.nextRequestID + 1
                nextRowID := acc.nextRowID }) := by
          simp only [createCargoLogisticRequestTx]
          rw [hpi]
        refine ⟨s.nextRequestID,
          { s with
            requests := s.requests ++ [⟨s.nextRequestID, "guest", true,
              first.fromCity, first.toCity, acc.totalWeight, acc.totalLength,
              acc.totalWidth, acc.totalHeight, acc.totalCost, acc.maxDays,
              statusDraft, cid, none, false⟩]
            rows := s.rows ++ acc.newRows
            nextRequestID := s.nextRequestID + 1
            nextRowID := acc.nextRowID }, ?_, ?_, ?_⟩
        · rw [CreateCargoLogisticRequest, if_neg (by simp), htx]
        · exact ⟨_, rfl, rfl⟩
        · refine ⟨acc.newRows, rfl, ?_⟩
          rw [hrows]
          simp [mkRows_map]

/-- Witness for claim C2: a list containing an item for the absent service 9
rolls the whole call back to the untouched `store0`, while two valid items
commit the request and both rows. -/
theorem createCargoLogisticRequest_atomicity_witness :
    (∃ e, firstItemError store0 [item1, itemBad] = some e ∧
      CreateCargoLogisticRequest store0 [item1, itemBad] 7 = (.error e, store0)) ∧
    (∃ rid s1, CreateCargoLogisticRequest store0 [item1, item2] 7 = (.ok rid, s1) ∧
      (∃ order, order.id = rid ∧ s1.requests = store0.requests ++ [order]) ∧
      (∃ newRows, s1.rows = store0.rows ++ newRows ∧
        newRows.map (fun r => (r.logisticRequestID, r.transportServiceID, r.quantity))
          = [item1, item2].map (fun it => (rid, it.transportServiceID, 1)))) :=
  ⟨(createCargoLogisticRequest_atomicity store0 [item1, itemBad] 7).1
      ⟨itemBad, by decide, by decide⟩,
   (createCargoLogisticRequest_atomicity store0 [item1, item2] 7).2
      (by decide) (by decide)⟩

/-- The completion fold equals the derivation-style sum and maximum over the
valid per-item quotes, relative to any starting accumulator. -/
theorem completeAgg_spec (s : Store) (order : LogisticRequest) :
    ∀ (rows : List LogisticRequestService) (c : ℤ) (d : Nat),
      completeAgg s order rows (c, d) =
        (c + ((rows.map (fun row => CalculateDelivery
            (s.services.find? (fun svc => svc.id == row.transportServiceID))
            order.fromCity order.toCity order.length order.width order.height
            order.weight)).filter (fun q => q.isValid)).foldr
              (fun q c2 => q.totalCost + c2) 0,
         Nat.max d (((rows.map (fun row => CalculateDelivery
            (s.services.find? (fun svc => svc.id == row.transportServiceID))
            order.fromCity order.toCity order.length order.width order.height
            order.weight)).filter (fun q => q.isValid)).foldr
              (fun q d2 => Nat.max q.deliveryDays d2) 0)) := by
  intro rows
  induction rows with
  | nil => intro c d; simp [completeAgg]
  | cons row rest ih =>
      intro c d
      simp only [completeAgg, List.map_cons]
      by_cases hv : (CalculateDelivery
          (s.services.find? (fun svc => svc.id == row.transportServiceID))
          order.fromCity order.toCity order.length order.width order.height
          order.weight).isValid
      · rw [if_pos hv, ih]
        simp only [List.filter_cons, hv, List.foldr_cons, if_true, Prod.mk.injEq]
        exact ⟨by ring, Nat.max_assoc _ _ _⟩
      · rw [if_neg hv, ih]
        simp [List.filter_cons, hv]

/-- Updating (by id) the request a successful `find?` located moves the
`find?` to the updated record. -/
theorem findRequest_map_update (l : List LogisticRequest) (rid : Nat)
    (newOrder : LogisticRequest) (hid : newOrder.id = rid)
    (hex : (l.find? (fun o => o.id == rid)).isSome) :
    (l.map (fun o => if o.id == rid then newOrder else o)).find?
      (fun o => o.id == rid) = some newOrder := by
  induction l with
  | nil => simp at hex
  | cons a t ih =>
      simp only [List.map_cons]
      by_cases ha : a.id = rid
      · rw [if_pos (by simp [ha]), List.find?_cons_of_pos _ (by simp [hid])]
      · rw [if_neg (by simp [ha]), List.find?_cons_of_neg _ (by simp [ha])]
        rw [List.find?_cons_of_neg _ (by simp [ha])] at hex
        exact ih hex

/-- Counterexample to claim C3: starting from `store0`, creating a one-item
request stores `TotalCost = 1885`, and adding service 2 to the resulting
draft succeeds, grows the line items to two rows and does not recompute the
totals — the stored 1885 differs from the 3270 the aggregation rule derives
from the request's line items, so the stored totals have drifted. -/
theorem totals_drift_counterexample :
    (AddServiceToLogisticRequest (CreateCargoLogisticRequest store0 [item1] 7).2 1 2).1
      = .ok () ∧
    (rowsOf c3Store 1).length = 2 ∧
    (findRequest c3Store 1).map (fun o => o.totalCost) = some 1885 ∧
    (findRequest c3Store 1).map (fun o => derivedTotalCost c3Store o) = some 3270 ∧
    (1885 : ℤ) ≠ 3270 := by decide

/-- Claim C3 (amended): the totals-recomputing operations re-establish the
aggregation derivation — completing a formed request stores exactly the
derivation `TotalCost` = sum and `TotalDays` = max of the valid per-item
quotes at the request's stored route and cargo — but
`AddServiceToLogisticRequest` mutates line items without ever touching the
requests table, so stored totals are not recomputed there and can drift
from the derivation until the next recompute. -/
theorem totals_recompute_and_drift
    (s : Store) (rid mid a b : Nat) (order : LogisticRequest)
    (hfind : findRequest s rid = some order)
    (hst : order.status = statusFormed) :
    (∃ s1 order1, CompleteLogisticRequest s rid statusCompleted mid = (.ok (), s1) ∧
      findRequest s1 rid = some order1 ∧
      order1.totalCost = derivedTotalCost s order ∧
      order1.totalDays = derivedTotalDays s order) ∧
    ((AddServiceToLogisticRequest s a b).2).requests = s.requests := by
  constructor
  · have hordid : order.id = rid := by
      have h := List.find?_some hfind
      simpa using h
    have hexp : CompleteLogisticRequest s rid statusCompleted mid =
        (.ok (), { s with requests := s.requests.map (fun o =>
            if o.id == order.id then
              { order with
                totalCost := (completeAgg s order (rowsOf s order.id) (0, 0)).1
                totalDays := (completeAgg s order (rowsOf s order.id) (0, 0)).2
                status := statusCompleted
                moderatorID := some mid }
            else o) }) := by
      simp only [CompleteLogisticRequest, hfind]
      rw [if_neg (by simp), if_neg (by simp [hst])]
      simp
    have hagg := completeAgg_spec s order (rowsOf s order.id) 0 0
    refine ⟨_, { order with
        totalCost := (completeAgg s order (rowsOf s order.id) (0, 0)).1
        totalDays := (completeAgg s order (rowsOf s order.id) (0, 0)).2
        status := statusCompleted
        moderatorID := some mid }, hexp, ?_, ?_, ?_⟩
    · simp only [findRequest]
      have hsome : (s.requests.find? (fun o => o.id == rid)).isSome := by
        rw [findRequest] at hfind
        simp [hfind]
      rw [hordid]
      exact findRequest_map_update s.requests rid _ rfl hsome
    · show (completeAgg s order (rowsOf s order.id) (0, 0)).1 = derivedTotalCost s order
      rw [hagg, derivedTotalCost]
      exact zero_add _
    · show (completeAgg s order (rowsOf s order.id) (0, 0)).2 = derivedTotalDays s order
      rw [hagg, derivedTotalDays]
      exact Nat.zero_max _
  · cases h1 : s.requests.find? (fun o => o.id == a && o.status == statusDraft) with
    | none => simp [AddServiceToLogisticRequest, h1]
    | some o =>
        cases h2 : GetTransportService s b with
        | error e => simp [AddServiceToLogisticRequest, h1, h2]
        | ok svc =>
            cases h3 : s.rows.find? (fun r =>
                r.logisticRequestID == a && r.transportServiceID == b) with
            | some ex => simp [AddServiceToLogisticRequest, h1, h2, h3]
            | none => simp [AddServiceToLogisticRequest, h1, h2, h3]

/-- Witness for claim C3 (amended): completing the formed request of the
concrete store recomputes its totals to the derived values, and adding a
service leaves the requests table untouched. -/
theorem totals_recompute_and_drift_witness :
    (∃ s1 order1,
      CompleteLogisticRequest storeFD 1 statusCompleted 9 = (.ok (), s1) ∧
      findRequest s1 1 = some order1 ∧
      order1.totalCost = derivedTotalCost storeFD reqFormed ∧
      order1.totalDays = derivedTotalDays storeFD reqFormed) ∧
    ((AddServiceToLogisticRequest storeFD 2 1).2).requests = storeFD.requests :=
  totals_recompute_and_drift storeFD 1 9 2 1 reqFormed (by decide) (by decide)

/-- Updating (by row id) the unique `p`-satisfying row of a list with
pairwise-distinct ids yields the updated row as the unique `p`-satisfying
row. -/
theorem filter_map_id_update (p : LogisticRequestService → Bool)
    (g : LogisticRequestService → LogisticRequestService)
    (r : LogisticRequestService) (hg : p (g r) = true) :
    ∀ (l : List LogisticRequestService), l.filter p = [r] →
      (l.map (fun x => x.id)).Nodup →
      (l.map (fun x => if x.id == r.id then g x else x)).filter p = [g r] := by
  intro l
  induction l with
  | nil => intro hl _; simp at hl
  | cons a t ih =>
      intro hl hids
      simp only [List.map_cons, List.nodup_cons] at hids
      obtain ⟨hnotin, hnodup⟩ := hids
      by_cases pa : p a
      · simp [List.filter_cons, pa] at hl
        obtain ⟨rfl, htail⟩ := hl
        simp only [List.map_cons]
        rw [if_pos (by simp), List.filter_cons_of_pos hg]
        have hmap : t.map (fun x => if x.id == a.id then g x else x) = t := by
          conv_rhs => rw [← List.map_id t]
          apply List.map_congr_left
          intro x hx
          have hne : x.id ≠ a.id := fun hc =>
            hnotin (hc ▸ List.mem_map_of_mem (fun y => y.id) hx)
          simp [hne]
        rw [hmap, List.filter_eq_nil_iff.2 (by intro x hx; simp [htail x hx])]
      · simp only [List.filter_cons_of_neg pa] at hl
        have hrmem : r ∈ t := by
          have hmem : r ∈ t.filter p := by
            rw [hl]
            exact List.mem_singleton_self r
          exact (List.mem_filter.1 hmem).1
        have haid : a.id ≠ r.id := fun hc =>
          hnotin (hc ▸ List.mem_map_of_mem (fun y => y.id) hrmem)
        simp only [List.map_cons]
        rw [if_neg (by simp [haid]), List.filter_cons_of_neg pa]
        exact ih hl hnodup

/-- In a list of rows with pairwise-distinct ids, filtering on one member's
id returns exactly that member. -/
theorem filter_id_eq_singleton (r : LogisticRequestService) :
    ∀ (l : List LogisticRequestService), r ∈ l →
      (l.map (fun x => x.id)).Nodup →
      l.filter (fun x => x.id == r.id) = [r] := by
  intro l
  induction l with
  | nil => intro h _; cases h
  | cons a t ih =>
      intro hr hids
      simp only [List.map_cons, List.nodup_cons] at hids
      obtain ⟨hnotin, hnodup⟩ := hids
      rcases List.mem_cons.1 hr with rfl | hrt
      · rw [List.filter_cons_of_pos (by simp)]
        rw [List.filter_eq_nil_iff.2 ?_]
        intro x hx
        simp only [beq_iff_eq]
        intro hc
        exact hnotin (hc ▸ List.mem_map_of_mem (fun y => y.id) hx)
      · have haid : a.id ≠ r.id := fun hc =>
          hnotin (hc ▸ List.mem_map_of_mem (fun y => y.id) hrt)
        rw [List.filter_cons_of_neg (by simp [haid])]
        exact ih hrt hnodup

/-- Mapping a function that never changes the filter predicate's verdict
preserves the length of the filter. -/
theorem length_filter_map_congr (f : LogisticRequestService → LogisticRequestService)
    (p : LogisticRequestService → Bool) (h : ∀ x, p (f x) = p x) :
    ∀ l : List LogisticRequestService,
      ((l.map f).filter p).length = (l.filter p).length := by
  intro l
  induction l with
  | nil => simp
  | cons a t ih =>
      by_cases pa : p a <;>
        simp [List.filter_cons, List.map_cons, h, pa, ih]

/-- Rows surviving the negated filter never satisfy the filter. -/
theorem filter_of_filter_not (p : LogisticRequestService → Bool)
    (l : List LogisticRequestService) :
    (l.filter (fun x => !(p x))).filter p = [] := by
  rw [List.filter_eq_nil_iff]
  intro x hx
  have hnp := (List.mem_filter.1 hx).2
  simp at hnp
  simp [hnp]

/-- Inserting a fresh line item: with a draft request, an existing service
and no row for the `(requestID, serviceID)` key, the upsert appends a
quantity-1 row. -/
theorem addService_insert (s : Store) (rid sid : Nat)
    (hdraft : (s.requests.find? (fun o => o.id == rid && o.status == statusDraft)).isSome)
    (hsvc : (s.services.find? (fun svc => svc.id == sid)).isSome)
    (hnone : rowsFor s rid sid = []) :
    AddServiceToLogisticRequest s rid sid =
      (.ok (), { s with
        rows := s.rows ++ [⟨s.nextRowID, rid, sid, 1⟩]
        nextRowID := s.nextRowID + 1 }) := by
  obtain ⟨o, ho⟩ := Option.isSome_iff_exists.1 hdraft
  obtain ⟨svc, hsvc2⟩ := Option.isSome_iff_exists.1 hsvc
  have hget : GetTransportService s sid = .ok svc :=
    (getTransportService_ok_iff s sid svc).2 hsvc2
  have hfind : s.rows.find? (fun r =>
      r.logisticRequestID == rid && r.transportServiceID == sid) = none :=
    find?_of_filter_nil _ _ hnone
  simp only [AddServiceToLogisticRequest, ho, hget, hfind]

/-- Incrementing an existing line item: with a draft request, an existing
service and exactly one row for the key (ids pairwise distinct), the upsert
bumps that row's quantity and adds no row. -/
theorem addService_increment (s : Store) (rid sid : Nat)
    (r : LogisticRequestService)
    (hdraft : (s.requests.find? (fun o => o.id == rid && o.status == statusDraft)).isSome)
    (hsvc : (s.services.find? (fun svc => svc.id == sid)).isSome)
    (hnodup : (s.rows.map (fun x => x.id)).Nodup)
    (hone : rowsFor s rid sid = [r]) :
    AddServiceToLogisticRequest s rid sid =
      (.ok (), { s with rows := s.rows.map (fun x =>
          if x.id == r.id then { x with quantity := x.quantity + 1 } else x) }) ∧
    rowsFor (AddServiceToLogisticRequest s rid sid).2 rid sid
      = [{ r with quantity := r.quantity + 1 }] ∧
    (AddServiceToLogisticRequest s rid sid).2.rows.length = s.rows.length := by
  obtain ⟨o, ho⟩ := Option.isSome_iff_exists.1 hdraft
  obtain ⟨svc, hsvc2⟩ := Option.isSome_iff_exists.1 hsvc
  have hget : GetTransportService s sid = .ok svc :=
    (getTransportService_ok_iff s sid svc).2 hsvc2
  have hfindr : s.rows.find? (fun x =>
      x.logisticRequestID == rid && x.transportServiceID == sid) = some r :=
    find?_of_filter_singleton _ _ _ hone
  have hkeyr : (r.logisticRequestID == rid && r.transportServiceID == sid) = true := by
    have hmem : r ∈ s.rows.filter (fun x =>
        x.logisticRequestID == rid && x.transportServiceID == sid) := by
      rw [show s.rows.filter (fun x =>
          x.logisticRequestID == rid && x.transportServiceID == sid) = [r] from hone]
      exact List.mem_singleton_self r
    exact (List.mem_filter.1 hmem).2
  have heq : AddServiceToLogisticRequest s rid sid =
      (.ok (), { s with rows := s.rows.map (fun x =>
          if x.id == r.id then { x with quantity := x.quantity + 1 } else x) }) := by
    simp only [AddServiceToLogisticRequest, ho, hget, hfindr]
  refine ⟨heq, ?_, ?_⟩
  · rw [heq]
    exact filter_map_id_update _ (fun x => { x with quantity := x.quantity + 1 }) r
      (by simpa using hkeyr) s.rows hone hnodup
  · rw [heq]
    simp

/-- Guest insert: with an existing service, an ensured guest draft and no
row for the key, the `ON CONFLICT` upsert inserts a quantity-1 row. -/
theorem guestAdd_insert (s : Store) (sid oid : Nat) (s1 : Store)
    (hsvc : (s.services.find? (fun svc => svc.id == sid)).isSome)
    (hens : ensureGuestDraftLogisticRequest s "guest" = (oid, s1))
    (hnone : rowsFor s1 oid sid = []) :
    AddTransportServiceToGuestDraftLogisticRequest s sid =
      (.ok (), { s1 with
        rows := s1.rows ++ [⟨s1.nextRowID, oid, sid, 1⟩]
        nextRowID := s1.nextRowID + 1 }) := by
  obtain ⟨svc, hsvc2⟩ := Option.isSome_iff_exists.1 hsvc
  have hget : GetTransportService s sid = .ok svc :=
    (getTransportService_ok_iff s sid svc).2 hsvc2
  have hfind : s1.rows.find? (fun r =>
      r.logisticRequestID == oid && r.transportServiceID == sid) = none :=
    find?_of_filter_nil _ _ hnone
  simp only [AddTransportServiceToGuestDraftLogisticRequest, hget, hens, hfind]

/-- Guest increment: with an existing service, an ensured guest draft and
exactly one row for the key, the `ON CONFLICT` upsert bumps that row. -/
theorem guestAdd_increment (s : Store) (sid oid : Nat) (s1 : Store)
    (r : LogisticRequestService)
    (hsvc : (s.services.find? (fun svc => svc.id == sid)).isSome)
    (hens : ensureGuestDraftLogisticRequest s "guest" = (oid, s1))
    (hone : rowsFor s1 oid sid = [r]) :
    AddTransportServiceToGuestDraftLogisticRequest s sid =
      (.ok (), { s1 with rows := s1.rows.map (fun x =>
          if x.logisticRequestID == oid && x.transportServiceID == sid then
            { x with quantity := x.quantity + 1 } else x) }) ∧
    rowsFor (AddTransportServiceToGuestDraftLogisticRequest s sid).2 oid sid
      = [{ r with quantity := r.quantity + 1 }] := by
  obtain ⟨svc, hsvc2⟩ := Option.isSome_iff_exists.1 hsvc
  have hget : GetTransportService s sid = .ok svc :=
    (getTransportService_ok_iff s sid svc).2 hsvc2
  have hfindr : s1.rows.find? (fun x =>
      x.logisticRequestID == oid && x.transportServiceID == sid) = some r :=
    find?_of_filter_singleton _ _ _ hone
  have heq : AddTransportServiceToGuestDraftLogisticRequest s sid =
      (.ok (), { s1 with rows := s1.rows.map (fun x =>
          if x.logisticRequestID == oid && x.transportServiceID == sid then
            { x with quantity := x.quantity + 1 } else x) }) := by
    simp only [AddTransportServiceToGuestDraftLogisticRequest, hget, hens, hfindr]
  refine ⟨heq, ?_⟩
  rw [heq]
  exact filter_map_keyed_update _ (fun x => { x with quantity := x.quantity + 1 })
    s1.rows r hone (by
      have hmem : r ∈ s1.rows.filter (fun x =>
          x.logisticRequestID == oid && x.transportServiceID == sid) := by
        rw [show s1.rows.filter (fun x =>
            x.logisticRequestID == oid && x.transportServiceID == sid) = [r] from hone]
        exact List.mem_singleton_self r
      have hkeyr := (List.mem_filter.1 hmem).2
      simpa using hkeyr)

/-- Guest remove, decrement branch: with an ensured guest draft and exactly
one key row of quantity above 1, the SQL `UPDATE` decrements that row and
keeps the row count. -/
theorem guestRemove_dec (s : Store) (sid oid : Nat) (s1 : Store)
    (r : LogisticRequestService)
    (hens : ensureGuestDraftLogisticRequest s "guest" = (oid, s1))
    (hone : rowsFor s1 oid sid = [r]) (hq : r.quantity > 1) :
    RemoveTransportServiceFromGuestDraftLogisticRequest s sid =
      (.ok (), { s1 with rows := s1.rows.map (fun x =>
          if x.logisticRequestID == oid && x.transportServiceID == sid then
            { x with quantity := x.quantity - 1 } else x) }) ∧
    rowsFor (RemoveTransportServiceFromGuestDraftLogisticRequest s sid).2 oid sid
      = [{ r with quantity := r.quantity - 1 }] ∧
    (RemoveTransportServiceFromGuestDraftLogisticRequest s sid).2.rows.length
      = s1.rows.length := by
  have hfindr : s1.rows.find? (fun x =>
      x.logisticRequestID == oid && x.transportServiceID == sid) = some r :=
    find?_of_filter_singleton _ _ _ hone
  have heq : RemoveTransportServiceFromGuestDraftLogisticRequest s sid =
      (.ok (), { s1 with rows := s1.rows.map (fun x =>
          if x.logisticRequestID == oid && x.transportServiceID == sid then
            { x with quantity := x.quantity - 1 } else x) }) := by
    simp only [RemoveTransportServiceFromGuestDraftLogisticRequest, hens, hfindr]
    rw [if_pos hq]
  refine ⟨heq, ?_, ?_⟩
  · rw [heq]
    exact filter_map_keyed_update _ (fun x => { x with quantity := x.quantity - 1 })
      s1.rows r hone (by
        have hmem : r ∈ s1.rows.filter (fun x =>
            x.logisticRequestID == oid && x.transportServiceID == sid) := by
          rw [show s1.rows.filter (fun x =>
              x.logisticRequestID == oid && x.transportServiceID == sid) = [r] from hone]
          exact List.mem_singleton_self r
        simpa using (List.mem_filter.1 hmem).2)
  · rw [heq]
    simp

/-- Guest remove, delete branch: with an ensured guest draft and exactly one
key row of quantity 1 (or below), the SQL `DELETE` removes the row. -/
theorem guestRemove_del (s : Store) (sid oid : Nat) (s1 : Store)
    (r : LogisticRequestService)
    (hens : ensureGuestDraftLogisticRequest s "guest" = (oid, s1))
    (hone : rowsFor s1 oid sid = [r]) (hq : ¬ r.quantity > 1) :
    RemoveTransportServiceFromGuestDraftLogisticRequest s sid =
      (.ok (), { s1 with rows := s1.rows.filter (fun x =>
          !(x.logisticRequestID == oid && x.transportServiceID == sid)) }) ∧
    rowsFor (RemoveTransportServiceFromGuestDraftLogisticRequest s sid).2 oid sid
      = [] ∧
    (RemoveTransportServiceFromGuestDraftLogisticRequest s sid).2.rows.length + 1
      = s1.rows.length := by
  have hfindr : s1.rows.find? (fun x =>
      x.logisticRequestID == oid && x.transportServiceID == sid) = some r :=
    find?_of_filter_singleton _ _ _ hone
  have heq : RemoveTransportServiceFromGuestDraftLogisticRequest s sid =
      (.ok (), { s1 with rows := s1.rows.filter (fun x =>
          !(x.logisticRequestID == oid && x.transportServiceID == sid)) }) := by
    simp only [RemoveTransportServiceFromGuestDraftLogisticRequest, hens, hfindr]
    rw [if_neg hq]
  refine ⟨heq, ?_, ?_⟩
  · rw [heq]
    exact filter_of_filter_not _ _
  · rw [heq]
    have h1 := length_filter_add_not (fun x =>
      x.logisticRequestID == oid && x.transportServiceID == sid) s1.rows
    rw [show s1.rows.filter (fun x =>
        x.logisticRequestID == oid && x.transportServiceID == sid) = [r] from hone] at h1
    simpa [Nat.add_comm] using h1

/-- The authenticated remove deletes the whole row by primary key,
regardless of its quantity. -/
theorem removeService_deletes (s : Store) (rid sid : Nat)
    (r : LogisticRequestService)
    (hnodup : (s.rows.map (fun x => x.id)).Nodup)
    (hone : rowsFor s rid sid = [r]) :
    RemoveServiceFromLogisticRequest s rid sid =
      (.ok (), { s with rows := s.rows.filter (fun x => !(x.id == r.id)) }) ∧
    rowsFor (RemoveServiceFromLogisticRequest s rid sid).2 rid sid = [] ∧
    (RemoveServiceFromLogisticRequest s rid sid).2.rows.length + 1
      = s.rows.length := by
  have hfindr : s.rows.find? (fun x =>
      x.logisticRequestID == rid && x.transportServiceID == sid) = some r :=
    find?_of_filter_singleton _ _ _ hone
  have heq : RemoveServiceFromLogisticRequest s rid sid =
      (.ok (), { s with rows := s.rows.filter (fun x => !(x.id == r.id)) }) := by
    simp only [RemoveServiceFromLogisticRequest, hfindr]
  have hrmem : r ∈ s.rows := by
    have hmem : r ∈ s.rows.filter (fun x =>
        x.logisticRequestID == rid && x.transportServiceID == sid) := by
      rw [show s.rows.filter (fun x =>
          x.logisticRequestID == rid && x.transportServiceID == sid) = [r] from hone]
      exact List.mem_singleton_self r
    exact (List.mem_filter.1 hmem).1
  refine ⟨heq, ?_, ?_⟩
  · rw [heq]
    show ((s.rows.filter (fun x => !(x.id == r.id))).filter (fun x =>
      x.logisticRequestID == rid && x.transportServiceID == sid)) = []
    rw [List.filter_eq_nil_iff]
    intro x hx
    obtain ⟨hxmem, hxid⟩ := List.mem_filter.1 hx
    intro hkey
    have hxr : x ∈ s.rows.filter (fun y =>
        y.logisticRequestID == rid && y.transportServiceID == sid) :=
      List.mem_filter.2 ⟨hxmem, hkey⟩
    rw [show s.rows.filter (fun y =>
        y.logisticRequestID == rid && y.transportServiceID == sid) = [r] from hone] at hxr
    rw [List.mem_singleton.1 hxr] at hxid
    simp at hxid
  · rw [heq]
    have h1 := length_filter_add_not (fun x => x.id == r.id) s.rows
    rw [filter_id_eq_singleton r s.rows hrmem hnodup] at h1
    simpa [Nat.add_comm] using h1


/-- Adding the same service twice to a draft with no key row: the first call
inserts a quantity-1 row, the second increments it, leaving exactly one
quantity-2 key row and one more row on the request than before. -/
theorem addService_double (s : Store) (rid sid : Nat)
    (hdraft : (s.requests.find? (fun o => o.id == rid && o.status == statusDraft)).isSome)
    (hsvc : (s.services.find? (fun svc => svc.id == sid)).isSome)
    (hnodup : (s.rows.map (fun x => x.id)).Nodup)
    (hfresh : ∀ x ∈ s.rows, x.id < s.nextRowID)
    (hnone : rowsFor s rid sid = []) :
    rowsFor (AddServiceToLogisticRequest
        (AddServiceToLogisticRequest s rid sid).2 rid sid).2 rid sid
      = [⟨s.nextRowID, rid, sid, 2⟩] ∧
    (rowsOf (AddServiceToLogisticRequest
        (AddServiceToLogisticRequest s rid sid).2 rid sid).2 rid).length
      = (rowsOf s rid).length + 1 := by
  have h1 := addService_insert s rid sid hdraft hsvc hnone
  have h1s : (AddServiceToLogisticRequest s rid sid).2 =
      { s with
        rows := s.rows ++ [(⟨s.nextRowID, rid, sid, 1⟩ : LogisticRequestService)]
        nextRowID := s.nextRowID + 1 } := by rw [h1]
  set sMid : Store := { s with
    rows := s.rows ++ [(⟨s.nextRowID, rid, sid, 1⟩ : LogisticRequestService)]
    nextRowID := s.nextRowID + 1 } with hsMid
  have hdraft2 : (sMid.requests.find?
      (fun o => o.id == rid && o.status == statusDraft)).isSome := hdraft
  have hsvc2 : (sMid.services.find? (fun svc => svc.id == sid)).isSome := hsvc
  have hnodup2 : (sMid.rows.map (fun x => x.id)).Nodup := by
    rw [hsMid]
    simp only [List.map_append]
    rw [List.nodup_append]
    refine ⟨hnodup, by simp, ?_⟩
    intro a ha hb
    simp only [List.map_cons, List.map_nil, List.mem_singleton] at hb
    obtain ⟨x, hx, hxa⟩ := List.mem_map.1 ha
    have hlt := hfresh x hx
    omega
  have hone2 : rowsFor sMid rid sid
      = [(⟨s.nextRowID, rid, sid, 1⟩ : LogisticRequestService)] := by
    rw [rowsFor, hsMid]
    simp only [List.filter_append]
    rw [show s.rows.filter (fun r =>
      r.logisticRequestID == rid && r.transportServiceID == sid) = [] from hnone]
    simp
  have h2 := addService_increment sMid rid sid ⟨s.nextRowID, rid, sid, 1⟩
    hdraft2 hsvc2 hnodup2 hone2
  constructor
  · rw [h1s]
    exact h2.2.1
  · rw [h1s]
    have h2e : (AddServiceToLogisticRequest sMid rid sid).2 =
        { sMid with rows := sMid.rows.map (fun x =>
            if x.id == (⟨s.nextRowID, rid, sid, 1⟩ : LogisticRequestService).id then
              { x with quantity := x.quantity + 1 } else x) } := by rw [h2.1]
    rw [rowsOf, h2e]
    show ((sMid.rows.map (fun x =>
        if x.id == (⟨s.nextRowID, rid, sid, 1⟩ : LogisticRequestService).id then
          { x with quantity := x.quantity + 1 } else x)).filter
        (fun r => r.logisticRequestID == rid)).length = (rowsOf s rid).length + 1
    rw [length_filter_map_congr _ _ (by
      intro x
      by_cases hc : (x.id == (⟨s.nextRowID, rid, sid, 1⟩ : LogisticRequestService).id)
        = true <;> simp [hc]) sMid.rows]
    show ((s.rows ++ [(⟨s.nextRowID, rid, sid, 1⟩ : LogisticRequestService)]).filter
        (fun r => r.logisticRequestID == rid)).length = (rowsOf s rid).length + 1
    rw [List.filter_append, rowsOf]
    simp

/-- Claim C7: adding a transport service to a draft request is an upsert
keyed on `(requestID, serviceID)` on both the authenticated and the guest
path — a missing key row is inserted with quantity 1, an existing key row
has its quantity incremented — and in particular adding the same service
twice to a draft with no key row yields exactly one line item with
quantity 2 while growing the request's row count by just one. -/
theorem draft_add_upsert :
    (∀ (s : Store) (rid sid : Nat),
      (s.requests.find? (fun o => o.id == rid && o.status == statusDraft)).isSome →
      (s.services.find? (fun svc => svc.id == sid)).isSome →
      rowsFor s rid sid = [] →
      AddServiceToLogisticRequest s rid sid =
        (.ok (), { s with
          rows := s.rows ++ [⟨s.nextRowID, rid, sid, 1⟩]
          nextRowID := s.nextRowID + 1 })) ∧
    (∀ (s : Store) (rid sid : Nat) (r : LogisticRequestService),
      (s.requests.find? (fun o => o.id == rid && o.status == statusDraft)).isSome →
      (s.services.find? (fun svc => svc.id == sid)).isSome →
      (s.rows.map (fun x => x.id)).Nodup →
      rowsFor s rid sid = [r] →
      (AddServiceToLogisticRequest s rid sid).1 = .ok () ∧
      rowsFor (AddServiceToLogisticRequest s rid sid).2 rid sid
        = [{ r with quantity := r.quantity + 1 }] ∧
      (AddServiceToLogisticRequest s rid sid).2.rows.length = s.rows.length) ∧
    (∀ (s : Store) (sid oid : Nat) (s1 : Store),
      (s.services.find? (fun svc => svc.id == sid)).isSome →
      ensureGuestDraftLogisticRequest s "guest" = (oid, s1) →
      rowsFor s1 oid sid = [] →
      AddTransportServiceToGuestDraftLogisticRequest s sid =
        (.ok (), { s1 with
          rows := s1.rows ++ [⟨s1.nextRowID, oid, sid, 1⟩]
          nextRowID := s1.nextRowID + 1 })) ∧
    (∀ (s : Store) (sid oid : Nat) (s1 : Store) (r : LogisticRequestService),
      (s.services.find? (fun svc => svc.id == sid)).isSome →
      ensureGuestDraftLogisticRequest s "guest" = (oid, s1) →
      rowsFor s1 oid sid = [r] →
      (AddTransportServiceToGuestDraftLogisticRequest s sid).1 = .ok () ∧
      rowsFor (AddTransportServiceToGuestDraftLogisticRequest s sid).2 oid sid
        = [{ r with quantity := r.quantity + 1 }]) ∧
    (∀ (s : Store) (rid sid : Nat),
      (s.requests.find? (fun o => o.id == rid && o.status == statusDraft)).isSome →
      (s.services.find? (fun svc => svc.id == sid)).isSome →
      (s.rows.map (fun x => x.id)).Nodup →
      (∀ x ∈ s.rows, x.id < s.nextRowID) →
      rowsFor s rid sid = [] →
      rowsFor (AddServiceToLogisticRequest
          (AddServiceToLogisticRequest s rid sid).2 rid sid).2 rid sid
        = [⟨s.nextRowID, rid, sid, 2⟩] ∧
      (rowsOf (AddServiceToLogisticRequest
          (AddServiceToLogisticRequest s rid sid).2 rid sid).2 rid).length
        = (rowsOf s rid).length + 1) := by
  refine ⟨addService_insert, ?_, guestAdd_insert, ?_, addService_double⟩
  · intro s rid sid r hdraft hsvc hnodup hone
    obtain ⟨heq, h2, h3⟩ := addService_increment s rid sid r hdraft hsvc hnodup hone
    exact ⟨by rw [heq], h2, h3⟩
  · intro s sid oid s1 r hsvc hens hone
    obtain ⟨heq, h2⟩ := guestAdd_increment s sid oid s1 r hsvc hens hone
    exact ⟨by rw [heq], h2⟩

/-- Witness for claim C7: adding service 1 twice to the rowless draft
request 2 of the concrete store yields exactly one line item with
quantity 2 and one extra row. -/
theorem draft_add_upsert_witness :
    rowsFor (AddServiceToLogisticRequest
        (AddServiceToLogisticRequest storeFD 2 1).2 2 1).2 2 1
      = [⟨storeFD.nextRowID, 2, 1, 2⟩] ∧
    (rowsOf (AddServiceToLogisticRequest
        (AddServiceToLogisticRequest storeFD 2 1).2 2 1).2 2).length
      = (rowsOf storeFD 2).length + 1 :=
  draft_add_upsert.2.2.2.2 storeFD 2 1 (by decide) (by decide) (by decide)
    (by decide) (by decide)

/-- Counterexample to claim C8: the authenticated remove path deletes the
whole line item even when its quantity is 3 — the store's only row (of
quantity 3) disappears instead of being decremented to 2. -/
theorem remove_not_decrement_counterexample :
    (rowsFor c8Store 1 1).map (fun r => r.quantity) = [3] ∧
    RemoveServiceFromLogisticRequest c8Store 1 1 = (.ok (), { c8Store with rows := [] }) ∧
    (¬ ∃ row ∈ (RemoveServiceFromLogisticRequest c8Store 1 1).2.rows,
      row.quantity = 2) := by decide

/-- Claim C8 (amended): the guest remove path decrements the key row's
quantity and deletes the row only when the quantity would drop to zero or
below, but the authenticated path `RemoveServiceFromLogisticRequest`
deletes the whole row outright regardless of its quantity. -/
theorem remove_decrement_amended :
    (∀ (s : Store) (sid : Nat) (o : LogisticRequest) (r : LogisticRequestService),
      s.requests.find? (fun o2 => o2.sessionID == "guest" && o2.isDraft && !o2.deleted)
        = some o →
      rowsFor s o.id sid = [r] →
      (r.quantity > 1 →
        (RemoveTransportServiceFromGuestDraftLogisticRequest s sid).1 = .ok () ∧
        rowsFor (RemoveTransportServiceFromGuestDraftLogisticRequest s sid).2 o.id sid
          = [{ r with quantity := r.quantity - 1 }] ∧
        (RemoveTransportServiceFromGuestDraftLogisticRequest s sid).2.rows.length
          = s.rows.length) ∧
      (¬ r.quantity > 1 →
        (RemoveTransportServiceFromGuestDraftLogisticRequest s sid).1 = .ok () ∧
        rowsFor (RemoveTransportServiceFromGuestDraftLogisticRequest s sid).2 o.id sid
          = [] ∧
        (RemoveTransportServiceFromGuestDraftLogisticRequest s sid).2.rows.length + 1
          = s.rows.length)) ∧
    (∀ (s : Store) (rid sid : Nat) (r : LogisticRequestService),
      (s.rows.map (fun x => x.id)).Nodup →
      rowsFor s rid sid = [r] →
      (RemoveServiceFromLogisticRequest s rid sid).1 = .ok () ∧
      rowsFor (RemoveServiceFromLogisticRequest s rid sid).2 rid sid = [] ∧
      (RemoveServiceFromLogisticRequest s rid sid).2.rows.length + 1
        = s.rows.length) := by
  constructor
  · intro s sid o r hfind hone
    have hens : ensureGuestDraftLogisticRequest s "guest" = (o.id, s) := by
      simp only [ensureGuestDraftLogisticRequest, hfind]
    constructor
    · intro hq
      obtain ⟨heq, h2, h3⟩ := guestRemove_dec s sid o.id s r hens hone hq
      exact ⟨by rw [heq], h2, h3⟩
    · intro hq
      obtain ⟨heq, h2, h3⟩ := guestRemove_del s sid o.id s r hens hone hq
      exact ⟨by rw [heq], h2, h3⟩
  · intro s rid sid r hnodup hone
    obtain ⟨heq, h2, h3⟩ := removeService_deletes s rid sid r hnodup hone
    exact ⟨by rw [heq], h2, h3⟩

/-- Witness for claim C8 (amended): removing service 1 from the guest draft
of `storeG` decrements its quantity-2 row to quantity 1, while the
authenticated remove on `storeFD` deletes its quantity-1 row for service 2
entirely. -/
theorem remove_decrement_amended_witness :
    ((RemoveTransportServiceFromGuestDraftLogisticRequest storeG 1).1 = .ok () ∧
      rowsFor (RemoveTransportServiceFromGuestDraftLogisticRequest storeG 1).2
        reqDraft.id 1 = [{ (⟨1, 2, 1, 2⟩ : LogisticRequestService) with
          quantity := (⟨1, 2, 1, 2⟩ : LogisticRequestService).quantity - 1 }] ∧
      (RemoveTransportServiceFromGuestDraftLogisticRequest storeG 1).2.rows.length
        = storeG.rows.length) ∧
    ((RemoveServiceFromLogisticRequest storeFD 1 2).1 = .ok () ∧
      rowsFor (RemoveServiceFromLogisticRequest storeFD 1 2).2 1 2 = [] ∧
      (RemoveServiceFromLogisticRequest storeFD 1 2).2.rows.length + 1
        = storeFD.rows.length) :=
  ⟨(remove_decrement_amended.1 storeG 1 reqDraft ⟨1, 2, 1, 2⟩ (by decide)
      (by decide)).1 (by decide),
   remove_decrement_amended.2 storeFD 1 2 ⟨2, 1, 2, 1⟩ (by decide) (by decide)⟩

/-- Claim C9: forming a request that exists but is not a draft fails with
the user-facing message "можно формировать только черновики", and
completing or rejecting a request that exists but is not formed fails with
"можно завершать только сформированные заявки"; in both cases the store is
returned unchanged. -/
theorem precondition_violations :
    (∀ (s : Store) (rid : Nat) (fromCity toCity : String) (w l wd ht : ℤ)
        (order : LogisticRequest),
      findRequest s rid = some order → order.status ≠ statusDraft →
      FormLogisticRequest s rid fromCity toCity w l wd ht =
        (.error "можно формировать только черновики", s)) ∧
    (∀ (s : Store) (rid : Nat) (st : String) (mid : Nat) (order : LogisticRequest),
      (st = statusCompleted ∨ st = statusRejected) →
      findRequest s rid = some order → order.status ≠ statusFormed →
      CompleteLogisticRequest s rid st mid =
        (.error "можно завершать только сформированные заявки", s)) := by
  constructor
  · intro s rid fromCity toCity w l wd ht order hfind hst
    simp only [FormLogisticRequest, hfind]
    rw [if_pos hst]
  · intro s rid st mid order hvalid hfind hst
    have hne : ¬(st ≠ statusCompleted ∧ st ≠ statusRejected) := by
      rcases hvalid with rfl | rfl
      · rintro ⟨h1, -⟩; exact h1 rfl
      · rintro ⟨-, h2⟩; exact h2 rfl
    simp only [CompleteLogisticRequest, hfind]
    rw [if_neg hne, if_pos hst]

/-- Witness for claim C9: forming the formed request 1 and completing the
draft request 2 of the concrete store both fail with the precondition
messages and leave the store as it was. -/
theorem precondition_violations_witness :
    FormLogisticRequest storeFD 1 "Москва" "Сочи" 1 1 1 1 =
      (.error "можно формировать только черновики", storeFD) ∧
    CompleteLogisticRequest storeFD 2 statusCompleted 9 =
      (.error "можно завершать только сформированные заявки", storeFD) :=
  ⟨precondition_violations.1 storeFD 1 "Москва" "Сочи" 1 1 1 1 reqFormed
      (by decide) (by decide),
   precondition_violations.2 storeFD 2 statusCompleted 9 reqDraft
      (Or.inl rfl) (by decide) (by decide)⟩

/-- Claim C10: `GetCartIcon` is get-or-create — it always succeeds, and
after it returns a draft of the creator exists whose id it returned; when
the creator already has a draft the store is untouched and the row count of
that draft is returned, and when none exists a fresh empty draft is created
and returned with count 0.  `ensureGuestDraftLogisticRequest` has the same
get-or-create behaviour keyed on the session id. -/
theorem getCartIcon_get_or_create :
    (∀ (s : Store) (cid : Nat), ∃ rid cnt s1,
      GetCartIcon s cid = (.ok (rid, cnt), s1) ∧
      ∃ o, o ∈ s1.requests ∧ o.creatorID = cid ∧ o.status = statusDraft ∧
        o.deleted = false ∧ o.id = rid) ∧
    (∀ (s : Store) (cid : Nat) (o : LogisticRequest),
      s.requests.find? (fun o2 => o2.creatorID == cid && o2.status == statusDraft
        && !o2.deleted) = some o →
      GetCartIcon s cid = (.ok (o.id, (rowsOf s o.id).length), s)) ∧
    (∀ (s : Store) (cid : Nat),
      s.requests.find? (fun o2 => o2.creatorID == cid && o2.status == statusDraft
        && !o2.deleted) = none →
      GetCartIcon s cid = (.ok (s.nextRequestID, 0),
        (CreateDraftLogisticRequest s cid).2)) ∧
    (∀ (s : Store) (sess : String),
      (∃ o, o ∈ (ensureGuestDraftLogisticRequest s sess).2.requests ∧
        o.sessionID = sess ∧ o.isDraft = true ∧ o.deleted = false ∧
        o.id = (ensureGuestDraftLogisticRequest s sess).1) ∧
      (∀ o, s.requests.find? (fun o2 => o2.sessionID == sess && o2.isDraft
          && !o2.deleted) = some o →
        ensureGuestDraftLogisticRequest s sess = (o.id, s))) := by
  refine ⟨?_, ?_, ?_, ?_⟩
  · intro s cid
    cases hf : s.requests.find? (fun o2 => o2.creatorID == cid
        && o2.status == statusDraft && !o2.deleted) with
    | some o =>
        have hp := List.find?_some hf
        simp only [Bool.and_eq_true, beq_iff_eq, Bool.not_eq_true'] at hp
        refine ⟨o.id, (rowsOf s o.id).length, s, ?_,
          o, List.mem_of_find?_eq_some hf, hp.1.1, hp.1.2, hp.2, rfl⟩
        simp only [GetCartIcon, hf]
    | none =>
        refine ⟨s.nextRequestID, 0,
          { s with
            requests := s.requests ++ [⟨s.nextRequestID, "", true, "", "", 0, 0, 0, 0,
              0, 0, statusDraft, cid, none, false⟩]
            nextRequestID := s.nextRequestID + 1 }, ?_, ?_⟩
        · simp only [GetCartIcon, hf, CreateDraftLogisticRequest]
        · exact ⟨⟨s.nextRequestID, "", true, "", "", 0, 0, 0, 0,
            0, 0, statusDraft, cid, none, false⟩,
            List.mem_append_right _ (List.mem_singleton_self _),
            rfl, rfl, rfl, rfl⟩
  · intro s cid o hf
    simp only [GetCartIcon, hf]
  · intro s cid hf
    simp only [GetCartIcon, hf, CreateDraftLogisticRequest]
  · intro s sess
    constructor
    · cases hf : s.requests.find? (fun o2 => o2.sessionID == sess
          && o2.isDraft && !o2.deleted) with
      | some o =>
          have hp := List.find?_some hf
          simp only [Bool.and_eq_true, beq_iff_eq, Bool.not_eq_true'] at hp
          refine ⟨o, ?_, hp.1.1, hp.1.2, hp.2, ?_⟩ <;>
            simp only [ensureGuestDraftLogisticRequest, hf]
          · exact List.mem_of_find?_eq_some hf
      | none =>
          refine ⟨⟨s.nextRequestID, sess, true, "", "", 0, 0, 0, 0,
            0, 0, statusDraft, GetCreatorID, none, false⟩, ?_, rfl, rfl, rfl, ?_⟩ <;>
            simp only [ensureGuestDraftLogisticRequest, hf]
          exact List.mem_append_right _ (List.mem_singleton_self _)
    · intro o hf
      simp only [ensureGuestDraftLogisticRequest, hf]

/-- Witness for claim C10: the creator 7 already has the draft request 2 in
the concrete store (returned unchanged), creator 9 has none and gets a
fresh draft with count 0, and the guest session's draft is found
unchanged. -/
theorem getCartIcon_get_or_create_witness :
    GetCartIcon storeFD 7 = (.ok (reqDraft.id, (rowsOf storeFD reqDraft.id).length),
      storeFD) ∧
    GetCartIcon storeFD 9 = (.ok (storeFD.nextRequestID, 0),
      (CreateDraftLogisticRequest storeFD 9).2) ∧
    ensureGuestDraftLogisticRequest storeFD "guest" = (reqDraft.id, storeFD) :=
  ⟨getCartIcon_get_or_create.2.1 storeFD 7 reqDraft (by decide),
   getCartIcon_get_or_create.2.2.1 storeFD 9 (by decide),
   (getCartIcon_get_or_create.2.2.2 storeFD "guest").2 reqDraft (by decide)⟩
